import Mathlib

/-!
# Shallow embedding of the `socks5_rs` SOCKS5 proxy core (src/lib.rs)

Bytes are modelled as natural numbers and a wire stream as the finite list
of bytes available to read.  Asynchronous reads become pure functions that
consume a prefix of the stream; writes accumulate an output byte list.
Rust `Result` values that the code propagates with `?` become `Res.err`,
while a `.unwrap()` on an `Err`/invalid value becomes `Res.panic` carrying
the reason, since a panic aborts the whole session task rather than
returning an error to the caller.  The system name resolver and the
outbound TCP dial are environment parameters (`resolver`, `dialOne`).
-/

namespace Socks5

def SOCKS_VERSION : Nat := 0x05

def RESERVED : Nat := 0x00

/-- The `AuthMethod` enum of the source (discriminants 0x00 and 0x02). -/
inductive AuthMethod where
  | NoAuth
  | UserPass
deriving DecidableEq

def AuthMethod.code : AuthMethod → Nat
  | .NoAuth => 0x00
  | .UserPass => 0x02

/-- The `Rep` enum of the source. -/
inductive Rep where
  | Success
deriving DecidableEq

def Rep.code : Rep → Nat
  | .Success => 0x00

/-- The `Socks5Error` enum: an I/O error or an unsupported address type. -/
inductive Socks5Error where
  | Io
  | AddressTypeNotSupported
deriving DecidableEq

/-- Why a session task panicked (a Rust `.unwrap()` on a failure value). -/
inductive PanicReason where
  | unwrapSocks5 : Socks5Error → PanicReason
  | unwrapUtf8 : PanicReason
  | unwrapIo : PanicReason
  | indexPanic : PanicReason
deriving DecidableEq

/-- Result of one step of the handler: normal value, propagated error
(Rust `Err` returned with `?`), or a panic that aborts the task. -/
inductive Res (α : Type) where
  | ok : α → Res α
  | err : Socks5Error → Res α
  | panic : PanicReason → Res α
deriving DecidableEq

/-- `read_exact` on a finite stream: exactly `n` bytes from the front plus
the remaining stream, or `none` for a short read (an I/O error). -/
def readExact (n : Nat) (s : List Nat) : Option (List Nat × List Nat) :=
  match n, s with
  | 0, s => some ([], s)
  | _ + 1, [] => none
  | n + 1, a :: s =>
    match readExact n s with
    | none => none
    | some (p, rest) => some (a :: p, rest)

/-- The `Atyp` enum (wire tags 0x01 / 0x03 / 0x04). -/
inductive Atyp where
  | V4
  | Domain
  | V6
deriving DecidableEq

def Atyp.code : Atyp → Nat
  | .V4 => 0x01
  | .Domain => 0x03
  | .V6 => 0x04

/-- `Atyp::from_u8`: any tag other than 0x01/0x03/0x04 is
`AddressTypeNotSupported`. -/
def Atyp.from_u8 (n : Nat) : Except Socks5Error Atyp :=
  if n = 0x01 then .ok .V4
  else if n = 0x03 then .ok .Domain
  else if n = 0x04 then .ok .V6
  else .error .AddressTypeNotSupported

/-- A concrete IPv4 socket address (`SocketAddrV4::new`). -/
structure SockV4 where
  a : Nat
  b : Nat
  c : Nat
  d : Nat
  port : Nat
deriving DecidableEq

/-- A concrete IPv6 socket address (`SocketAddrV6::new`), eight 16-bit
groups plus port, flow-info and scope-id. -/
structure SockV6 where
  g0 : Nat
  g1 : Nat
  g2 : Nat
  g3 : Nat
  g4 : Nat
  g5 : Nat
  g6 : Nat
  g7 : Nat
  port : Nat
  flowinfo : Nat
  scope_id : Nat
deriving DecidableEq

/-- `std::net::SocketAddr`. -/
inductive SocketAddr where
  | v4 : SockV4 → SocketAddr
  | v6 : SockV6 → SocketAddr
deriving DecidableEq

/-- Big-endian 16-bit read of two bytes (`bytes::Buf::get_u16`). -/
def get_u16 (b0 b1 : Nat) : Nat := b0 * 256 + b1

/-- The parsed request (`Socks5Req`). -/
structure Socks5Req where
  atyp : Atyp
  addr : List Nat
  port : Nat
deriving DecidableEq

/-- `Socks5Req::from_stream`: reads the 4-byte header, unwraps the address
type (panicking on an unsupported tag), reads the type-specific address
payload, then the big-endian port. -/
def Socks5Req.from_stream (s : List Nat) : Res (Socks5Req × List Nat) :=
  match readExact 4 s with
  | none => .err .Io
  | some (first4, s1) =>
    match Atyp.from_u8 (first4.getD 3 0) with
    | .error e => .panic (.unwrapSocks5 e)
    | .ok atyp =>
      let addrRes : Res (List Nat × List Nat) :=
        match atyp with
        | .V4 =>
          match readExact 4 s1 with
          | none => .err .Io
          | some (addr, s2) => .ok (addr, s2)
        | .Domain =>
          match readExact 1 s1 with
          | none => .err .Io
          | some (lenBuf, s2) =>
            match readExact (lenBuf.getD 0 0) s2 with
            | none => .err .Io
            | some (addr, s3) => .ok (addr, s3)
        | .V6 =>
          match readExact 16 s1 with
          | none => .err .Io
          | some (addr, s2) => .ok (addr, s2)
      match addrRes with
      | .err e => .err e
      | .panic r => .panic r
      | .ok (addr, s2) =>
        match readExact 2 s2 with
        | none => .err .Io
        | some (portBytes, s3) =>
          .ok (⟨atyp, addr, get_u16 (portBytes.getD 0 0) (portBytes.getD 1 0)⟩, s3)

/-- Validity of a byte sequence as UTF-8, the check `String::from_utf8`
performs: 1–4 byte sequences, no overlong encodings, no surrogates,
maximum scalar value 0x10FFFF. -/
def utf8Valid : List Nat → Bool
  | [] => true
  | b :: rest =>
    if b ≤ 0x7F then utf8Valid rest
    else if b < 0xC2 then false
    else if b ≤ 0xDF then
      match rest with
      | b1 :: rest1 => if 0x80 ≤ b1 ∧ b1 ≤ 0xBF then utf8Valid rest1 else false
      | [] => false
    else if b ≤ 0xEF then
      match rest with
      | b1 :: b2 :: rest2 =>
        if (if b = 0xE0 then 0xA0 ≤ b1 ∧ b1 ≤ 0xBF
            else if b = 0xED then 0x80 ≤ b1 ∧ b1 ≤ 0x9F
            else 0x80 ≤ b1 ∧ b1 ≤ 0xBF) ∧ 0x80 ≤ b2 ∧ b2 ≤ 0xBF then
          utf8Valid rest2
        else false
      | _ => false
    else if b ≤ 0xF4 then
      match rest with
      | b1 :: b2 :: b3 :: rest3 =>
        if (if b = 0xF0 then 0x90 ≤ b1 ∧ b1 ≤ 0xBF
            else if b = 0xF4 then 0x80 ≤ b1 ∧ b1 ≤ 0x8F
            else 0x80 ≤ b1 ∧ b1 ≤ 0xBF) ∧
            (0x80 ≤ b2 ∧ b2 ≤ 0xBF) ∧ 0x80 ≤ b3 ∧ b3 ≤ 0xBF then
          utf8Valid rest3
        else false
      | _ => false
    else false

/-- ASCII bytes of the decimal representation of `n` (`n.to_string()`). -/
def decimalAscii (n : Nat) : List Nat := (Nat.toDigits 10 n).map Char.toNat

/-- `Socks5Req::as_socket_addr`.  Strings are modelled by their UTF-8
bytes; `resolver` is the system name resolution (`to_socket_addrs`), taking
the query `"<host>:<port>"` as bytes and returning `none` on a resolution
error.  The domain branch panics on invalid UTF-8
(`String::from_utf8(..).unwrap()`); the V4/V6 branches index the raw
address bytes, panicking when fewer than 4 resp. 16 are present. -/
def Socks5Req.as_socket_addr (resolver : List Nat → Option (List SocketAddr))
    (req : Socks5Req) : Res (List SocketAddr) :=
  match req.atyp with
  | .V4 =>
    match req.addr with
    | a :: b :: c :: d :: _ => .ok [SocketAddr.v4 ⟨a, b, c, d, req.port⟩]
    | _ => .panic .indexPanic
  | .Domain =>
    if utf8Valid req.addr then
      match resolver (req.addr ++ 0x3A :: decimalAscii req.port) with
      | none => .err .Io
      | some addrs => .ok addrs
    else .panic .unwrapUtf8
  | .V6 =>
    match req.addr with
    | b0 :: b1 :: b2 :: b3 :: b4 :: b5 :: b6 :: b7 ::
      b8 :: b9 :: b10 :: b11 :: b12 :: b13 :: b14 :: b15 :: _ =>
      .ok [SocketAddr.v6 ⟨get_u16 b0 b1, get_u16 b2 b3, get_u16 b4 b5,
        get_u16 b6 b7, get_u16 b8 b9, get_u16 b10 b11, get_u16 b12 b13,
        get_u16 b14 b15, req.port, 0, 0⟩]
    | _ => .panic .indexPanic

/-- `TcpStream::connect` on a slice of addresses: tries each address in
order, first success wins; `none` when every attempt fails (also for an
empty slice). -/
def dial (dialOne : SocketAddr → Bool) : List SocketAddr → Option SocketAddr
  | [] => none
  | a :: rest => if dialOne a then some a else dial dialOne rest

/-- Outcome of `Socks5Handler::handle_req`. -/
inductive HOutcome where
  | okRelay
  | err : Socks5Error → HOutcome
  | panic : PanicReason → HOutcome
deriving DecidableEq

/-- The handler state set up by `Socks5Handler::init`. -/
structure Socks5Handler where
  socks_version : Nat
  auth_nmethods : Nat
deriving DecidableEq

/-- `Socks5Handler::auth`: reads `auth_nmethods` method bytes (whose values
are ignored) and writes the two-byte reply `[SOCKS_VERSION, NoAuth]`.
Returns the bytes written and the remaining stream. -/
def Socks5Handler.auth (nmethods : Nat) (s : List Nat) :
    Res (List Nat × List Nat) :=
  match readExact nmethods s with
  | none => .err .Io
  | some (_, s1) => .ok ([SOCKS_VERSION, AuthMethod.code .NoAuth], s1)

/-- The fixed ten-byte success reply written on successful dial. -/
def successReply : List Nat :=
  [SOCKS_VERSION, Rep.code .Success, RESERVED, 0x01, 0, 0, 0, 0, 0, 0]

/-- `Socks5Handler::handle_req`: auth, then `from_stream(..).unwrap()`,
then `as_socket_addr().unwrap()`, then the dial (`?`), then the success
reply, then the relay.  Returns all bytes written to the client and the
outcome; `okRelay` means the success reply was written and the relay
entered. -/
def Socks5Handler.handle_req (h : Socks5Handler) (s : List Nat)
    (resolver : List Nat → Option (List SocketAddr))
    (dialOne : SocketAddr → Bool) : List Nat × HOutcome :=
  match Socks5Handler.auth h.auth_nmethods s with
  | .err e => ([], .err e)
  | .panic r => ([], .panic r)
  | .ok (authOut, s1) =>
    match Socks5Req.from_stream s1 with
    | .err e => (authOut, .panic (.unwrapSocks5 e))
    | .panic r => (authOut, .panic r)
    | .ok (req, _) =>
      match Socks5Req.as_socket_addr resolver req with
      | .err e => (authOut, .panic (.unwrapSocks5 e))
      | .panic r => (authOut, .panic r)
      | .ok addrs =>
        match dial dialOne addrs with
        | none => (authOut, .err .Io)
        | some _ => (authOut ++ successReply, .okRelay)

/-- Outcome of one whole session (`Socks5Handler::init`). -/
inductive SessionOutcome where
  | success
  | errShutdown
  | panicked : PanicReason → SessionOutcome
deriving DecidableEq

/-- `Socks5Handler::init`: reads the two greeting header bytes with
`read_exact(..).unwrap()` (a short read panics), stores version and
nmethods, runs `handle_req`, and shuts the stream down when it returned an
error. -/
def Socks5Handler.init (s : List Nat)
    (resolver : List Nat → Option (List SocketAddr))
    (dialOne : SocketAddr → Bool) : List Nat × SessionOutcome :=
  match readExact 2 s with
  | none => ([], .panicked .unwrapIo)
  | some (header, s1) =>
    match Socks5Handler.handle_req ⟨header.getD 0 0, header.getD 1 0⟩ s1
        resolver dialOne with
    | (out, .okRelay) => (out, .success)
    | (out, .err _) => (out, .errShutdown)
    | (out, .panic r) => (out, .panicked r)

theorem readExact_append (p s : List Nat) :
    readExact p.length (p ++ s) = some (p, s) := by
  induction p with
  | nil => rfl
  | cons a p ih => simp [readExact, ih]

theorem readExact_short (n : Nat) (s : List Nat) (h : s.length < n) :
    readExact n s = none := by
  induction s generalizing n with
  | nil =>
    cases n with
    | zero => omega
    | succ n => rfl
  | cons a s ih =>
    cases n with
    | zero => omega
    | succ n => simp [readExact, ih n (by simpa using h)]

theorem auth_ok_out (n : Nat) (s out s1 : List Nat)
    (h : Socks5Handler.auth n s = .ok (out, s1)) :
    out = [SOCKS_VERSION, AuthMethod.code .NoAuth] := by
  unfold Socks5Handler.auth at h
  cases hR : readExact n s with
  | none => rw [hR] at h; exact absurd h (by simp)
  | some p =>
    cases p with
    | mk ms rest =>
      rw [hR] at h
      simp at h
      exact h.1.symm

theorem dial_eq_find (dialOne : SocketAddr → Bool) (l : List SocketAddr) :
    dial dialOne l = l.find? dialOne := by
  induction l with
  | nil => rfl
  | cons a rest ih =>
    by_cases hA : dialOne a = true
    · simp [dial, List.find?, hA]
    · simp only [Bool.not_eq_true] at hA
      simp [dial, List.find?, hA, ih]

/-- C1: for every request whose address-type byte is outside
{0x01, 0x03, 0x04}, `Atyp.from_u8` fails with `AddressTypeNotSupported`,
request parsing stops immediately with that failure (whatever bytes
follow), the session is aborted, and the only bytes written to the client
are the two auth-reply bytes — no reply follows the auth-reply stage. -/
theorem c1_addressTypeNotSupported (gv n ver cmd rsv b : Nat)
    (methods rest : List Nat)
    (resolver : List Nat → Option (List SocketAddr))
    (dialOne : SocketAddr → Bool) (hm : methods.length = n)
    (hb1 : b ≠ 0x01) (hb3 : b ≠ 0x03) (hb4 : b ≠ 0x04) :
    Atyp.from_u8 b = .error .AddressTypeNotSupported
    ∧ Socks5Req.from_stream (ver :: cmd :: rsv :: b :: rest)
        = .panic (.unwrapSocks5 .AddressTypeNotSupported)
    ∧ Socks5Handler.init (gv :: n :: methods ++ ver :: cmd :: rsv :: b :: rest)
        resolver dialOne
        = ([SOCKS_VERSION, AuthMethod.code .NoAuth],
           .panicked (.unwrapSocks5 .AddressTypeNotSupported)) := by
  have hA : Atyp.from_u8 b = .error .AddressTypeNotSupported := by
    simp [Atyp.from_u8, hb1, hb3, hb4]
  have h4 : readExact 4 (ver :: cmd :: rsv :: b :: rest)
      = some ([ver, cmd, rsv, b], rest) := rfl
  have hfs : Socks5Req.from_stream (ver :: cmd :: rsv :: b :: rest)
      = .panic (.unwrapSocks5 .AddressTypeNotSupported) := by
    simp [Socks5Req.from_stream, h4, hA]
  have hauth : Socks5Handler.auth n (methods ++ ver :: cmd :: rsv :: b :: rest)
      = .ok ([SOCKS_VERSION, AuthMethod.code .NoAuth],
             ver :: cmd :: rsv :: b :: rest) := by
    unfold Socks5Handler.auth
    rw [← hm, readExact_append]
  have h2 : readExact 2 (gv :: n :: methods ++ ver :: cmd :: rsv :: b :: rest)
      = some ([gv, n], methods ++ ver :: cmd :: rsv :: b :: rest) := rfl
  refine ⟨hA, hfs, ?_⟩
  unfold Socks5Handler.init
  rw [h2]
  simp only [List.getD]
  simp [Socks5Handler.handle_req, hauth, hfs]

/-- C1 witness at address-type byte 0x00. -/
theorem c1_addressTypeNotSupported_witness :
    Atyp.from_u8 0 = .error .AddressTypeNotSupported
    ∧ Socks5Req.from_stream [5, 1, 0, 0]
        = .panic (.unwrapSocks5 .AddressTypeNotSupported)
    ∧ Socks5Handler.init [5, 0, 5, 1, 0, 0] (fun _ => none) (fun _ => false)
        = ([SOCKS_VERSION, AuthMethod.code .NoAuth],
           .panicked (.unwrapSocks5 .AddressTypeNotSupported)) :=
  c1_addressTypeNotSupported 5 0 5 1 0 0 [] [] (fun _ => none) (fun _ => false)
    rfl (by decide) (by decide) (by decide)

/-- C2 counterexample: a short read of the two-byte greeting header is not
returned as an error value — the session task panics
(`read_exact(..).unwrap()` in `init`), so not every failure is threaded as
an explicit result value. -/
theorem c2_counterexample :
    (Socks5Handler.init [] (fun _ => none) (fun _ => false)).2
        = .panicked .unwrapIo
    ∧ (Socks5Handler.init [] (fun _ => none) (fun _ => false)).2
        ≠ .errShutdown := by
  refine ⟨rfl, by decide⟩

/-- C2 amended: failures in the auth read and in the outbound dial are
returned as explicit error values to the session handler, but the
greeting-header short read, a request-parse failure and a resolution
failure are unwrapped and abort the session task with a panic instead of
being returned as error values. -/
theorem c2_amended (h : Socks5Handler) (s s1 authOut : List Nat)
    (resolver : List Nat → Option (List SocketAddr))
    (dialOne : SocketAddr → Bool)
    (hauth : Socks5Handler.auth h.auth_nmethods s = .ok (authOut, s1)) :
    (∀ t : List Nat, t.length < 2 →
      Socks5Handler.init t resolver dialOne = ([], .panicked .unwrapIo))
    ∧ (∀ t : List Nat, Socks5Handler.auth h.auth_nmethods t = .err .Io →
      Socks5Handler.handle_req h t resolver dialOne = ([], .err .Io))
    ∧ (∀ e, Socks5Req.from_stream s1 = .err e →
      Socks5Handler.handle_req h s resolver dialOne
        = (authOut, .panic (.unwrapSocks5 e)))
    ∧ (∀ req s2 e, Socks5Req.from_stream s1 = .ok (req, s2) →
      Socks5Req.as_socket_addr resolver req = .err e →
      Socks5Handler.handle_req h s resolver dialOne
        = (authOut, .panic (.unwrapSocks5 e)))
    ∧ (∀ req s2 addrs, Socks5Req.from_stream s1 = .ok (req, s2) →
      Socks5Req.as_socket_addr resolver req = .ok addrs →
      dial dialOne addrs = none →
      Socks5Handler.handle_req h s resolver dialOne = (authOut, .err .Io)) := by
  refine ⟨?_, ?_, ?_, ?_, ?_⟩
  · intro t ht
    simp [Socks5Handler.init, readExact_short 2 t ht]
  · intro t hT
    simp [Socks5Handler.handle_req, hT]
  · intro e hE
    simp [Socks5Handler.handle_req, hauth, hE]
  · intro req s2 e hF hS
    simp [Socks5Handler.handle_req, hauth, hF, hS]
  · intro req s2 addrs hF hS hD
    simp [Socks5Handler.handle_req, hauth, hF, hS, hD]

/-- C2 amended witness: the empty stream (greeting short read) panics. -/
theorem c2_amended_witness :
    Socks5Handler.init [] (fun _ => none) (fun _ => false)
      = ([], .panicked .unwrapIo) :=
  (c2_amended ⟨5, 0⟩ [] [] [SOCKS_VERSION, AuthMethod.code .NoAuth]
    (fun _ => none) (fun _ => false) (by decide)).1 [] (by decide)

/-- C3: for every greeting with NMETHODS in [0, 255] and exactly NMETHODS
method bytes, whatever their values, the auth reply is exactly
[0x05, 0x00], and the selected method is NoAuth. -/
theorem c3_authReply (n : Nat) (methods rest : List Nat)
    (hn : n ≤ 255) (hm : methods.length = n) :
    Socks5Handler.auth n (methods ++ rest) = .ok ([0x05, 0x00], rest)
    ∧ [SOCKS_VERSION, AuthMethod.code .NoAuth] = [0x05, 0x00] := by
  refine ⟨?_, rfl⟩
  unfold Socks5Handler.auth
  rw [← hm, readExact_append]
  rfl

/-- C3 witness with two offered methods, neither of them NoAuth. -/
theorem c3_authReply_witness :
    Socks5Handler.auth 2 ([7, 9] ++ [1, 2, 3]) = .ok ([0x05, 0x00], [1, 2, 3])
    ∧ [SOCKS_VERSION, AuthMethod.code .NoAuth] = [0x05, 0x00] :=
  c3_authReply 2 [7, 9] [1, 2, 3] (by decide) rfl

/-- C4: whenever the outbound dial succeeds (the handler reaches the
relay), the bytes written to the client are the auth reply followed by
exactly the fixed ten-byte reply [5, 0, 0, 1, 0, 0, 0, 0, 0, 0]: bound
address and port are zero-filled whatever the outbound connection was. -/
theorem c4_successReply (h : Socks5Handler) (s : List Nat)
    (resolver : List Nat → Option (List SocketAddr))
    (dialOne : SocketAddr → Bool)
    (hs : (Socks5Handler.handle_req h s resolver dialOne).2 = .okRelay) :
    (Socks5Handler.handle_req h s resolver dialOne).1
      = [SOCKS_VERSION, AuthMethod.code .NoAuth] ++ successReply
    ∧ successReply = [0x05, 0x00, 0x00, 0x01, 0, 0, 0, 0, 0, 0] := by
  refine ⟨?_, rfl⟩
  have hs2 := hs
  unfold Socks5Handler.handle_req at hs2
  split at hs2
  next e heq => exact absurd hs2 (by simp)
  next r heq => exact absurd hs2 (by simp)
  next authOut s1 heq =>
    split at hs2
    next e heq2 => exact absurd hs2 (by simp)
    next r heq2 => exact absurd hs2 (by simp)
    next req s2 heq2 =>
      split at hs2
      next e heq3 => exact absurd hs2 (by simp)
      next r heq3 => exact absurd hs2 (by simp)
      next addrs heq3 =>
        split at hs2
        next heq4 => exact absurd hs2 (by simp)
        next a heq4 =>
          have hout := auth_ok_out h.auth_nmethods s authOut s1 heq
          simp [Socks5Handler.handle_req, heq, heq2, heq3, heq4, hout]

/-- C4 witness: a concrete session whose dial succeeds. -/
theorem c4_successReply_witness :
    (Socks5Handler.handle_req ⟨5, 0⟩ [5, 1, 0, 1, 127, 0, 0, 1, 0, 80]
        (fun _ => none) (fun _ => true)).1
      = [SOCKS_VERSION, AuthMethod.code .NoAuth] ++ successReply
    ∧ successReply = [0x05, 0x00, 0x00, 0x01, 0, 0, 0, 0, 0, 0] :=
  c4_successReply ⟨5, 0⟩ [5, 1, 0, 1, 127, 0, 0, 1, 0, 80] (fun _ => none)
    (fun _ => true) (by decide)

/-- C5: an IPv4 request with address bytes a, b, c, d and port bytes
p_hi, p_lo parses to exactly those four raw bytes with port
p_hi * 256 + p_lo, resolves to exactly the single endpoint
a.b.c.d:(p_hi * 256 + p_lo), and the dial tries that single address and
nothing else. -/
theorem c5_ipv4 (v cmd rsv a b c d ph pl : Nat) (rest : List Nat)
    (resolver : List Nat → Option (List SocketAddr))
    (dialOne : SocketAddr → Bool) :
    Socks5Req.from_stream
        (v :: cmd :: rsv :: 1 :: a :: b :: c :: d :: ph :: pl :: rest)
      = .ok (⟨.V4, [a, b, c, d], get_u16 ph pl⟩, rest)
    ∧ Socks5Req.as_socket_addr resolver ⟨.V4, [a, b, c, d], get_u16 ph pl⟩
      = .ok [SocketAddr.v4 ⟨a, b, c, d, get_u16 ph pl⟩]
    ∧ get_u16 ph pl = ph * 256 + pl
    ∧ dial dialOne [SocketAddr.v4 ⟨a, b, c, d, get_u16 ph pl⟩]
      = (if dialOne (SocketAddr.v4 ⟨a, b, c, d, get_u16 ph pl⟩)
         then some (SocketAddr.v4 ⟨a, b, c, d, get_u16 ph pl⟩) else none) :=
  ⟨rfl, rfl, rfl, rfl⟩

/-- C6: an IPv6 request with 16 raw address bytes resolves to exactly one
endpoint whose eight groups are the big-endian 16-bit pairs of those bytes
in order, with the parsed port, zero flow-info and zero scope-id. -/
theorem c6_ipv6
    (v cmd rsv b0 b1 b2 b3 b4 b5 b6 b7 b8 b9 b10 b11 b12 b13 b14 b15
      ph pl : Nat) (rest : List Nat)
    (resolver : List Nat → Option (List SocketAddr)) :
    Socks5Req.from_stream
        (v :: cmd :: rsv :: 4 :: b0 :: b1 :: b2 :: b3 :: b4 :: b5 :: b6 ::
          b7 :: b8 :: b9 :: b10 :: b11 :: b12 :: b13 :: b14 :: b15 ::
          ph :: pl :: rest)
      = .ok (⟨.V6, [b0, b1, b2, b3, b4, b5, b6, b7, b8, b9, b10, b11, b12,
          b13, b14, b15], get_u16 ph pl⟩, rest)
    ∧ Socks5Req.as_socket_addr resolver
        ⟨.V6, [b0, b1, b2, b3, b4, b5, b6, b7, b8, b9, b10, b11, b12, b13,
          b14, b15], get_u16 ph pl⟩
      = .ok [SocketAddr.v6 ⟨get_u16 b0 b1, get_u16 b2 b3, get_u16 b4 b5,
          get_u16 b6 b7, get_u16 b8 b9, get_u16 b10 b11, get_u16 b12 b13,
          get_u16 b14 b15, get_u16 ph pl, 0, 0⟩] :=
  ⟨rfl, rfl⟩

/-- C7: a domain request with length byte N and N name bytes that form
text (valid UTF-8) parses to exactly those raw bytes; resolution queries
the resolver with exactly the name, a colon, and the decimal port, and
returns the resolver's endpoint list unchanged and in order; a resolver
failure is an Io error from as_socket_addr and the session is then aborted
with nothing written beyond the auth reply. -/
theorem c7_domain (v cmd rsv ph pl n : Nat) (name rest : List Nat)
    (resolver : List Nat → Option (List SocketAddr))
    (dialOne : SocketAddr → Bool)
    (hlen : name.length = n) (hvalid : utf8Valid name = true) :
    Socks5Req.from_stream (v :: cmd :: rsv :: 3 :: n :: name ++ ph :: pl :: rest)
      = .ok (⟨.Domain, name, get_u16 ph pl⟩, rest)
    ∧ (∀ addrs,
        resolver (name ++ 0x3A :: decimalAscii (get_u16 ph pl)) = some addrs →
        Socks5Req.as_socket_addr resolver ⟨.Domain, name, get_u16 ph pl⟩
          = .ok addrs)
    ∧ (resolver (name ++ 0x3A :: decimalAscii (get_u16 ph pl)) = none →
        Socks5Req.as_socket_addr resolver ⟨.Domain, name, get_u16 ph pl⟩
          = .err .Io
        ∧ Socks5Handler.init
            (5 :: 0 :: v :: cmd :: rsv :: 3 :: n :: name ++ ph :: pl :: rest)
            resolver dialOne
          = ([SOCKS_VERSION, AuthMethod.code .NoAuth],
             .panicked (.unwrapSocks5 .Io))) := by
  have h4 : readExact 4 (v :: cmd :: rsv :: 3 :: n :: (name ++ ph :: pl :: rest))
      = some ([v, cmd, rsv, 3], n :: (name ++ ph :: pl :: rest)) := rfl
  have h1 : readExact 1 (n :: (name ++ ph :: pl :: rest))
      = some ([n], name ++ ph :: pl :: rest) := rfl
  have hname : readExact n (name ++ ph :: pl :: rest)
      = some (name, ph :: pl :: rest) := by
    rw [← hlen]
    exact readExact_append name (ph :: pl :: rest)
  have h2p : readExact 2 (ph :: pl :: rest) = some ([ph, pl], rest) := rfl
  have hfs : Socks5Req.from_stream
      (v :: cmd :: rsv :: 3 :: n :: (name ++ ph :: pl :: rest))
      = .ok (⟨.Domain, name, get_u16 ph pl⟩, rest) := by
    simp [Socks5Req.from_stream, h4, h1, hname, h2p, Atyp.from_u8]
  refine ⟨hfs, ?_, ?_⟩
  · intro addrs hres
    simp [Socks5Req.as_socket_addr, hvalid, hres]
  · intro hres
    have hsa : Socks5Req.as_socket_addr resolver ⟨.Domain, name, get_u16 ph pl⟩
        = .err .Io := by
      simp [Socks5Req.as_socket_addr, hvalid, hres]
    refine ⟨hsa, ?_⟩
    have h2 : readExact 2
        (5 :: 0 :: v :: cmd :: rsv :: 3 :: n :: name ++ ph :: pl :: rest)
        = some ([5, 0],
            v :: cmd :: rsv :: 3 :: n :: name ++ ph :: pl :: rest) := rfl
    unfold Socks5Handler.init
    rw [h2]
    simp only [List.getD]
    simp [Socks5Handler.handle_req, Socks5Handler.auth, readExact, hfs, hsa]

/-- C7 witness: the name "hi", a resolver that always fails. -/
theorem c7_domain_witness :
    Socks5Req.from_stream [5, 1, 0, 3, 2, 104, 105, 0, 80]
      = .ok (⟨.Domain, [104, 105], get_u16 0 80⟩, [])
    ∧ Socks5Handler.init [5, 0, 5, 1, 0, 3, 2, 104, 105, 0, 80]
        (fun _ => none) (fun _ => false)
      = ([SOCKS_VERSION, AuthMethod.code .NoAuth],
         .panicked (.unwrapSocks5 .Io)) :=
  ⟨(c7_domain 5 1 0 0 80 2 [104, 105] [] (fun _ => none) (fun _ => false)
      rfl (by decide)).1,
   ((c7_domain 5 1 0 0 80 2 [104, 105] [] (fun _ => none) (fun _ => false)
      rfl (by decide)).2.2 rfl).2⟩

/-- C8: the dial tries the resolved endpoints strictly sequentially in the
given order and returns the first success (it is List.find?); when every
attempt fails it yields none, and the handler then returns the Io
connection error with nothing written beyond the auth reply — no success
reply is ever sent. -/
theorem c8_dial (dialOne : SocketAddr → Bool) (addrs : List SocketAddr)
    (hfail : ∀ a ∈ addrs, dialOne a = false) :
    (∀ l : List SocketAddr, dial dialOne l = l.find? dialOne)
    ∧ dial dialOne addrs = none
    ∧ (∀ (h : Socks5Handler) (s s1 s2 authOut : List Nat)
        (resolver : List Nat → Option (List SocketAddr)) (req : Socks5Req),
        Socks5Handler.auth h.auth_nmethods s = .ok (authOut, s1) →
        Socks5Req.from_stream s1 = .ok (req, s2) →
        Socks5Req.as_socket_addr resolver req = .ok addrs →
        Socks5Handler.handle_req h s resolver dialOne
          = (authOut, .err .Io)) := by
  have hnone : dial dialOne addrs = none := by
    rw [dial_eq_find]
    rw [List.find?_eq_none]
    intro x hx
    simp [hfail x hx]
  refine ⟨dial_eq_find dialOne, hnone, ?_⟩
  intro h s s1 s2 authOut resolver req hauth hF hS
  simp [Socks5Handler.handle_req, hauth, hF, hS, hnone]

/-- C8 witness: one endpoint, a dial that always fails. -/
theorem c8_dial_witness :
    Socks5Handler.handle_req ⟨5, 0⟩ [5, 1, 0, 1, 127, 0, 0, 1, 0, 80]
      (fun _ => none) (fun _ => false)
      = ([SOCKS_VERSION, AuthMethod.code .NoAuth], .err .Io) :=
  (c8_dial (fun _ => false) [SocketAddr.v4 ⟨127, 0, 0, 1, 80⟩]
      (by decide)).2.2
    ⟨5, 0⟩ [5, 1, 0, 1, 127, 0, 0, 1, 0, 80] [5, 1, 0, 1, 127, 0, 0, 1, 0, 80]
    [] [SOCKS_VERSION, AuthMethod.code .NoAuth] (fun _ => none)
    ⟨.V4, [127, 0, 0, 1], get_u16 0 80⟩ rfl rfl rfl

/-- C9: two request streams that differ only in the command byte and/or
the reserved byte of the 4-byte header parse to the same result: same
descriptor, same remaining stream, same failure if any — neither byte is
inspected. -/
theorem c9_cmdReservedIgnored (v cmd rsv cmd2 rsv2 t : Nat)
    (rest : List Nat) :
    Socks5Req.from_stream (v :: cmd :: rsv :: t :: rest)
      = Socks5Req.from_stream (v :: cmd2 :: rsv2 :: t :: rest) := rfl

/-- C10: a domain request whose name bytes are not valid UTF-8 — here the
single byte 0xFF — makes as_socket_addr hit the String.from_utf8 unwrap
panic instead of returning an error value: the session aborts by panic
after the auth reply and no Socks5Error is ever returned to the handler. -/
theorem c10_invalidUtf8Panic :
    utf8Valid [0xFF] = false
    ∧ Socks5Req.as_socket_addr (fun _ => some []) ⟨.Domain, [0xFF], 80⟩
      = .panic .unwrapUtf8
    ∧ Socks5Handler.init [5, 0, 5, 1, 0, 3, 1, 0xFF, 0, 80]
        (fun _ => some []) (fun _ => true)
      = ([SOCKS_VERSION, AuthMethod.code .NoAuth], .panicked .unwrapUtf8) := by
  refine ⟨rfl, rfl, by decide⟩

end Socks5
